import Mathlib

/-!
Verification of the MongoDB instance supervisor core: a shallow embedding of
`src/packages/mongodb-memory-server-core/src/util/MongoInstance.ts`.

The stdout classifier, the launch-promise callbacks, the primary-waiter
registry, the kill protocol and the command builder are translated into
executable Lean definitions; JavaScript regular-expression tests with the `i`
flag are modelled as case-insensitive substring searches, and promise
settlement as an explicit three-valued state.
-/

set_option maxRecDepth 4096

/-- Case-insensitive character comparison, modelling the `i` flag of the
regular expressions used by the classifier. -/
def charEqCI (a b : Char) : Bool := a.toLower == b.toLower

/-- Match `pat` case-insensitively at the head of `cs`; on success return the
remainder of `cs` after the matched portion. -/
def dropLitCI : List Char → List Char → Option (List Char)
  | [], cs => some cs
  | _ :: _, [] => none
  | p :: ps, c :: cs => if charEqCI p c then dropLitCI ps cs else none

/-- Case-insensitive substring search over a character list, modelling
`/pat/i.test(line)` for a pattern that is a plain literal. -/
def containsSubCI (pat : List Char) : List Char → Bool
  | [] => (dropLitCI pat []).isSome
  | c :: cs => (dropLitCI pat (c :: cs)).isSome || containsSubCI pat cs

/-- Boolean test `/pat/i.test(line)` for a literal pattern `pat`. -/
def containsCI (line pat : String) : Bool := containsSubCI pat.data line.data

/-- Search for a case-insensitive match of `b` at or after the current
position, refusing to skip over a newline (JavaScript `.` does not match
newlines). -/
def gapFindCI (b : List Char) : List Char → Bool
  | [] => (dropLitCI b []).isSome
  | c :: cs => (dropLitCI b (c :: cs)).isSome || (!(c == '\n') && gapFindCI b cs)

/-- Boolean test for the two-literal patterns `/a.*b/i` and `/a.*?b/i`:
some occurrence of `a`, followed by an occurrence of `b` with no newline in
between (laziness does not change the boolean result). -/
def seqSubCI (a b : List Char) : List Char → Bool
  | [] => false
  | c :: cs =>
    (match dropLitCI a (c :: cs) with
     | some rest => gapFindCI b rest
     | none => false)
    || seqSubCI a b cs

/-- Boolean test `/a.*?b/i` over a string. -/
def seqCI (line a b : String) : Bool := seqSubCI a.data b.data line.data

/-- Character class `[\d\.:]` of the member-state regular expression. -/
def isAddrChar (c : Char) : Bool := c.isDigit || c == '.' || c == ':'

/-- Character class `\w` of the member-state regular expression. -/
def isWordChar (c : Char) : Bool := c.isAlphanum || c == '_'

/-- Attempt to match `/member [\d\.:]+ is now in state (\w+)/i` anchored at the
current position; on success return the address run and the captured state
run.  Because the address class contains no space, the greedy run needs no
backtracking. -/
def matchMemberAt (cs : List Char) : Option (List Char × List Char) :=
  (dropLitCI "member ".data cs).bind fun rest =>
    if (rest.takeWhile isAddrChar).isEmpty then none
    else
      (dropLitCI " is now in state ".data (rest.dropWhile isAddrChar)).bind fun rest3 =>
        if (rest3.takeWhile isWordChar).isEmpty then none
        else some (rest.takeWhile isAddrChar, rest3.takeWhile isWordChar)

/-- Scan the line for the first position where the member-state pattern
matches, as the regular-expression engine does. -/
def memberFind : List Char → Option (List Char × List Char)
  | [] => none
  | c :: cs =>
    match matchMemberAt (c :: cs) with
    | some r => some r
    | none => memberFind cs

/-- `/member [\d\.:]+ is now in state \w+/i.test(line)`. -/
def memberTest (line : String) : Bool := (memberFind line.data).isSome

/-- Capture group 1 of the first match of the member-state pattern,
modelling `regex.exec(line)?.[1]`. -/
def memberExtract (line : String) : Option String :=
  (memberFind line.data).map (fun r => String.mk r.2)

/-! The individual classifier tests, in the priority order of the `if` chain
of `stdoutHandler`. -/

/-- `/waiting for connections/i`. -/
def mWaiting (l : String) : Bool := containsCI l "waiting for connections"

/-- `/addr already in use/i`. -/
def mAddrInUse (l : String) : Bool := containsCI l "addr already in use"

/-- `/mongod instance already running/i`. -/
def mAlreadyRunning (l : String) : Bool := containsCI l "mongod instance already running"

/-- `/permission denied/i`. -/
def mPermissionDenied (l : String) : Bool := containsCI l "permission denied"

/-- `/Data directory .*? not found/i`. -/
def mDataDir (l : String) : Bool := seqCI l "Data directory " " not found"

/-- `/CURL_OPENSSL_3.*not found/i`. -/
def mCurl3 (l : String) : Bool := seqCI l "CURL_OPENSSL_3" "not found"

/-- `/CURL_OPENSSL_4.*not found/i`. -/
def mCurl4 (l : String) : Bool := seqCI l "CURL_OPENSSL_4" "not found"

/-- `/shutting down with code/i`. -/
def mShutting (l : String) : Bool := containsCI l "shutting down with code"

/-- `/\*\*\*aborting after/i`. -/
def mAborting (l : String) : Bool := containsCI l "***aborting after"

/-- `/transition to primary complete; database writes are now permitted/i`. -/
def mPrimaryTransition (l : String) : Bool :=
  containsCI l "transition to primary complete; database writes are now permitted"

/-! Instance options and the command builder. -/

/-- `MongoInstanceOpts`: optional fields are `Option`; JavaScript falsiness of
the values (`0`, the empty string, `undefined`, `false`) is modelled at the
use sites. -/
structure MongoInstanceOpts where
  port : Option Nat := none
  ip : Option String := none
  storageEngine : Option String := none
  dbPath : Option String := none
  replSet : Option String := none
  args : Option (List String) := none
  auth : Option Bool := none
deriving DecidableEq

/-- `this.instanceOpts.ip || '127.0.0.1'`: any falsy value (absent or the
empty string) yields the loopback default. -/
def ipOrDefault : Option String → String
  | some s => if s == "" then "127.0.0.1" else s
  | none => "127.0.0.1"

/-- Truthiness of the configured port (`!!this.instanceOpts.port`). -/
def portTruthy : Option Nat → Bool
  | some p => !(p == 0)
  | none => false

/-- Tokens contributed by the port clause of the builder. -/
def portArgs : Option Nat → List String
  | some p => if p == 0 then [] else ["--port", toString p]
  | none => []

/-- Tokens contributed by the storage-engine clause of the builder. -/
def storageEngineArgs : Option String → List String
  | some e => if e == "" then [] else ["--storageEngine", e]
  | none => []

/-- Tokens contributed by the data-directory clause of the builder. -/
def dbPathArgs : Option String → List String
  | some d => if d == "" then [] else ["--dbpath", d]
  | none => []

/-- Tokens contributed by the authentication clause of the builder: always
exactly one of the two tokens. -/
def authArgs : Option Bool → List String
  | some true => ["--auth"]
  | _ => ["--noauth"]

/-- Tokens contributed by the replica-set clause of the builder. -/
def replSetArgs : Option String → List String
  | some r => if r == "" then [] else ["--replSet", r]
  | none => []

/-- The tokens the builder generates itself, before the verbatim extra
arguments: the `result` array of `prepareCommandArgs` just before the final
`concat`. -/
def builderOwnArgs (o : MongoInstanceOpts) : List String :=
  ["--bind_ip", ipOrDefault o.ip]
    ++ portArgs o.port
    ++ storageEngineArgs o.storageEngine
    ++ dbPathArgs o.dbPath
    ++ authArgs o.auth
    ++ replSetArgs o.replSet

/-- `MongoInstance.prepareCommandArgs`: the builder tokens followed by
`this.instanceOpts.args ?? []` appended verbatim. -/
def prepareCommandArgs (o : MongoInstanceOpts) : List String :=
  builderOwnArgs o ++ o.args.getD []

/-! The instance handle: events, promise settlement, waiters, handlers. -/

/-- Events emitted through the `EventEmitter` surface of `MongoInstance`,
with the payloads the source passes to `emit`. -/
inductive Ev where
  | instanceSTDOUT (line : String)
  | instanceSTDERR (line : String)
  | instanceReadyEv
  | instanceError (err : String)
  | instanceClosed (code : Int)
  | instancePrimary
  | instanceState (state : String)
  | instanceLaunched
  | killerLaunched
  | instanceStarted
deriving DecidableEq

/-- Settlement state of the launch promise created in `run()`. -/
inductive LaunchPromise where
  | pending
  | fulfilled
  | rejected (msg : String)
deriving DecidableEq

/-- `resolve()` on the launch promise: only a pending promise settles. -/
def promiseResolve : LaunchPromise → LaunchPromise
  | .pending => .fulfilled
  | s => s

/-- `reject(err)` on the launch promise: only a pending promise settles. -/
def promiseReject (msg : String) : LaunchPromise → LaunchPromise
  | .pending => .rejected msg
  | s => s

/-- The mutable fields of a `MongoInstance` after `run()` has installed the
launch callbacks, together with the configured port (`instanceOpts.port`,
immutable once launch begins) and the presence of the killer process handle.
Primary waiters are identified by numbers; `waiterSettled` records, in
resolution order, the first (and only effective) value each waiter promise
was resolved with. -/
structure MongoInstanceState where
  instancePort : Option Nat
  killerPresent : Bool
  isInstancePrimary : Bool
  isInstanceReady : Bool
  launch : LaunchPromise
  waitForPrimaryResolveFns : List Nat
  waiterSettled : List (Nat × Bool)
  killerKillCount : Nat
deriving DecidableEq

/-- Resolve one waiter promise: a later call on an already-settled promise is
a no-op, so only the first value is recorded. -/
def settleWaiter (settled : List (Nat × Bool)) (id : Nat) (v : Bool) : List (Nat × Bool) :=
  match settled.lookup id with
  | some _ => settled
  | none => settled ++ [(id, v)]

/-- `waitForPrimaryResolveFns.forEach((resolveFn) => resolveFn(v))`: invoke
every registered resolver in list (FIFO) order. -/
def settleAll (settled : List (Nat × Bool)) (ids : List Nat) (v : Bool) : List (Nat × Bool) :=
  ids.foldl (fun acc id => settleWaiter acc id v) settled

/-- The `instanceReady` callback installed by `run()`: set the ready flag and
resolve the launch promise. -/
def instanceReady (s : MongoInstanceState) : MongoInstanceState :=
  { s with isInstanceReady := true, launch := promiseResolve s.launch }

/-- The `instanceFailed` callback installed by `run()`: signal the killer
process (when present) and reject the launch promise.  It emits no event and
does not touch the primary waiters. -/
def instanceFailed (s : MongoInstanceState) (err : String) : MongoInstanceState :=
  { s with
      killerKillCount := if s.killerPresent then s.killerKillCount + 1 else s.killerKillCount,
      launch := promiseReject err s.launch }

/-- Interpolation of `this.instanceOpts.port` into the bind-conflict message
(`undefined` prints as the string "undefined" in a template literal). -/
def portToString : Option Nat → String
  | some p => toString p
  | none => "undefined"

/-- Message of the libcurl3 dependency failure. -/
def curl3ErrorMsg : String :=
  "libcurl3 is not available on your system. Mongod requires it and cannot be started without it.\n"
    ++ "You should manually install libcurl3 or try to use an newer version of MongoDB\n"

/-- Message of the libcurl4 dependency failure. -/
def curl4ErrorMsg : String :=
  "libcurl4 is not available on your system. Mongod requires it and cannot be started without it.\n"
    ++ "You need to manually install libcurl4\n"

/-- `MongoInstance.stdoutHandler`: emit the raw line, then run the classifier
chain; only the first matching pattern acts.  Returns the new state and the
events emitted, in emission order. -/
def stdoutHandler (s : MongoInstanceState) (line : String) : MongoInstanceState × List Ev :=
  if mWaiting line then
    (instanceReady s, [Ev.instanceSTDOUT line, Ev.instanceReadyEv])
  else if mAddrInUse line then
    (instanceFailed s ("Port " ++ portToString s.instancePort ++ " already in use"),
     [Ev.instanceSTDOUT line])
  else if mAlreadyRunning line then
    (instanceFailed s "Mongod already running", [Ev.instanceSTDOUT line])
  else if mPermissionDenied line then
    (instanceFailed s "Mongod permission denied", [Ev.instanceSTDOUT line])
  else if mDataDir line then
    (instanceFailed s "Data directory not found", [Ev.instanceSTDOUT line])
  else if mCurl3 line then
    (instanceFailed s curl3ErrorMsg, [Ev.instanceSTDOUT line])
  else if mCurl4 line then
    (instanceFailed s curl4ErrorMsg, [Ev.instanceSTDOUT line])
  else if mShutting line then
    (if s.isInstanceReady then s else instanceFailed s "Mongod shutting down",
     [Ev.instanceSTDOUT line])
  else if mAborting line then
    (instanceFailed s "Mongod internal error", [Ev.instanceSTDOUT line])
  else if mPrimaryTransition line then
    ({ s with
        isInstancePrimary := true,
        waiterSettled := settleAll s.waiterSettled s.waitForPrimaryResolveFns true },
     [Ev.instanceSTDOUT line, Ev.instancePrimary])
  else if memberTest line then
    ({ s with
        isInstancePrimary :=
          if (memberExtract line).getD "UNKOWN" == "PRIMARY" then s.isInstancePrimary
          else false },
     [Ev.instanceSTDOUT line, Ev.instanceState ((memberExtract line).getD "UNKOWN")])
  else (s, [Ev.instanceSTDOUT line])

/-- `MongoInstance.stderrHandler`: stderr lines are only forwarded, never
classified. -/
def stderrHandler (s : MongoInstanceState) (line : String) : MongoInstanceState × List Ev :=
  (s, [Ev.instanceSTDERR line])

/-- `MongoInstance.errorHandler` (process spawn-error path): the only place a
`instanceError` event is emitted. -/
def errorHandler (s : MongoInstanceState) (err : String) : MongoInstanceState × List Ev :=
  (instanceFailed s err, [Ev.instanceError err])

/-- `MongoInstance.closeHandler`. -/
def closeHandler (s : MongoInstanceState) (code : Int) : MongoInstanceState × List Ev :=
  (s, [Ev.instanceClosed code])

/-- `MongoInstance.waitPrimaryReady` for a fresh waiter `id`: return
immediately with `true` when already primary, otherwise register the waiter
at the end of the FIFO list and suspend (`none`). -/
def waitPrimaryReady (s : MongoInstanceState) (id : Nat) : MongoInstanceState × Option Bool :=
  if s.isInstancePrimary then (s, some true)
  else ({ s with waitForPrimaryResolveFns := s.waitForPrimaryResolveFns ++ [id] }, none)

/-- The failure message, if any, the classifier chain hands to
`instanceFailed` for a given state and line; a projection of the `if` chain
of `stdoutHandler`. -/
def classifiedFailure (s : MongoInstanceState) (line : String) : Option String :=
  if mWaiting line then none
  else if mAddrInUse line then
    some ("Port " ++ portToString s.instancePort ++ " already in use")
  else if mAlreadyRunning line then some "Mongod already running"
  else if mPermissionDenied line then some "Mongod permission denied"
  else if mDataDir line then some "Data directory not found"
  else if mCurl3 line then some curl3ErrorMsg
  else if mCurl4 line then some curl4ErrorMsg
  else if mShutting line then
    (if s.isInstanceReady then none else some "Mongod shutting down")
  else if mAborting line then some "Mongod internal error"
  else none

/-! The shutdown coordinator (`MongoInstance.kill`). -/

deriving instance DecidableEq for Except

/-- Signals the kill protocol sends. -/
inductive Signal where
  | SIGINT
  | SIGKILL
deriving DecidableEq

/-- `const timeoutTime = 1000 * 10` (milliseconds). -/
def timeoutTime : Nat := 1000 * 10

/-- The message of the stuck-process rejection in `kill_internal` — a fixed
string; the process name appears only in debug logging. -/
def killInternalErrorMsg : String :=
  "Process didnt exit, enable debug for more information."

/-- Timing behavior of a process under the kill protocol: the delay in
milliseconds after the graceful signal at which it would exit on its own
(if ever), and the delay after a forceful signal at which it exits (if
ever). -/
structure ProcBehavior where
  sigintExitDelay : Option Nat
  sigkillExitDelay : Option Nat
deriving DecidableEq

/-- Earliest of two optional instants. -/
def minOpt : Option Nat → Option Nat → Option Nat
  | some a, some b => some (Nat.min a b)
  | some a, none => some a
  | none, b => b

/-- `kill_internal`: send `SIGINT` at time 0; if the process has not exited
when the 10-second timer fires, send `SIGKILL` and arm a second 10-second
timer; if the process still has not exited when that fires, reject with the
fixed stuck-process message.  Returns the signals sent, in order, and the
outcome. -/
def kill_internal (p : ProcBehavior) : List Signal × Except String Unit :=
  match p.sigintExitDelay with
  | some t =>
    if t < timeoutTime then ([Signal.SIGINT], Except.ok ())
    else
      match minOpt (some t) (p.sigkillExitDelay.map (fun k => timeoutTime + k)) with
      | some e =>
        if e < 2 * timeoutTime then ([Signal.SIGINT, Signal.SIGKILL], Except.ok ())
        else ([Signal.SIGINT, Signal.SIGKILL], Except.error killInternalErrorMsg)
      | none => ([Signal.SIGINT, Signal.SIGKILL], Except.error killInternalErrorMsg)
  | none =>
    match p.sigkillExitDelay.map (fun k => timeoutTime + k) with
    | some e =>
      if e < 2 * timeoutTime then ([Signal.SIGINT, Signal.SIGKILL], Except.ok ())
      else ([Signal.SIGINT, Signal.SIGKILL], Except.error killInternalErrorMsg)
    | none => ([Signal.SIGINT, Signal.SIGKILL], Except.error killInternalErrorMsg)

/-- `MongoInstance.kill`: shut down the mongod child process first (skipped
without error when the handle is absent), then the killer process; a
rejection from the first `kill_internal` aborts the whole call before the
killer is signalled.  Returns the trace of (process name, signal) pairs in
send order and the outcome. -/
def kill (child killer : Option ProcBehavior) :
    List (String × Signal) × Except String Unit :=
  let step1 : List (String × Signal) × Except String Unit :=
    match child with
    | some p =>
      let r := kill_internal p
      (r.1.map (fun sg => ("childProcess", sg)), r.2)
    | none => ([], Except.ok ())
  match step1.2 with
  | Except.error e => (step1.1, Except.error e)
  | Except.ok _ =>
    let step2 : List (String × Signal) × Except String Unit :=
      match killer with
      | some p =>
        let r := kill_internal p
        (r.1.map (fun sg => ("killerProcess", sg)), r.2)
      | none => ([], Except.ok ())
    (step1.1 ++ step2.1, step2.2)

/-! Helper lemmas about the waiter-settlement bookkeeping. -/

theorem lookup_append (l1 l2 : List (Nat × Bool)) (i : Nat) :
    (l1 ++ l2).lookup i = ((l1.lookup i).orElse (fun _ => l2.lookup i)) := by
  induction l1 with
  | nil => simp [List.lookup]
  | cons a t ih =>
    cases a with
    | mk k v =>
      by_cases h : i = k
      · subst h; simp [List.lookup]
      · simp only [List.cons_append, List.lookup]
        have : (i == k) = false := by simpa using h
        simp [this, ih]

theorem settleWaiter_lookup (st : List (Nat × Bool)) (j i : Nat) (v : Bool) :
    (settleWaiter st j v).lookup i =
      if i = j then some ((st.lookup j).getD v) else st.lookup i := by
  unfold settleWaiter
  by_cases h : i = j
  · subst h
    cases hj : st.lookup i with
    | some w => simp [hj]
    | none => simp [hj, lookup_append, List.lookup]
  · cases hj : st.lookup j with
    | some w => simp [hj, h]
    | none =>
      have : (i == j) = false := by simpa using h
      simp [hj, h, lookup_append, List.lookup, this]

theorem settleAll_lookup (ids : List Nat) (st : List (Nat × Bool)) (i : Nat) (v : Bool) :
    (settleAll st ids v).lookup i =
      if i ∈ ids then some ((st.lookup i).getD v) else st.lookup i := by
  induction ids generalizing st with
  | nil => simp [settleAll]
  | cons j ids ih =>
    have hstep : settleAll st (j :: ids) v = settleAll (settleWaiter st j v) ids v := rfl
    rw [hstep, ih]
    by_cases hij : i = j
    · subst hij
      by_cases hmem : i ∈ ids
      · simp [hmem, settleWaiter_lookup]
      · simp [hmem, settleWaiter_lookup]
    · have h1 : (settleWaiter st j v).lookup i = st.lookup i := by
        simp [settleWaiter_lookup, hij]
      rw [h1]
      by_cases hmem : i ∈ ids
      · simp [hmem, hij]
      · simp [hmem, hij]

theorem settleAll_fresh (ids : List Nat) (st : List (Nat × Bool)) (v : Bool)
    (hfresh : ∀ i ∈ ids, st.lookup i = none) (hnd : ids.Nodup) :
    settleAll st ids v = st ++ ids.map (fun i => (i, v)) := by
  induction ids generalizing st with
  | nil => simp [settleAll]
  | cons j ids ih =>
    have hstep : settleAll st (j :: ids) v = settleAll (settleWaiter st j v) ids v := rfl
    have hj : st.lookup j = none := hfresh j (by simp)
    have hsw : settleWaiter st j v = st ++ [(j, v)] := by
      unfold settleWaiter; simp [hj]
    rw [hstep, hsw, ih]
    · simp
    · intro i hi
      rw [lookup_append]
      have hij : i ≠ j := by
        intro h; subst h
        exact (List.nodup_cons.mp hnd).1 hi
      have : (i == j) = false := by simpa using hij
      simp [hfresh i (List.mem_cons_of_mem _ hi), List.lookup, this]
    · exact (List.nodup_cons.mp hnd).2

/-! Soundness of the member-state matcher: a successful match always captures
a nonempty address consisting solely of digits, dots and colons. -/

theorem matchMemberAt_sound {cs addr st : List Char}
    (h : matchMemberAt cs = some (addr, st)) :
    addr ≠ [] ∧ ∀ c ∈ addr, isAddrChar c = true := by
  unfold matchMemberAt at h
  cases h1 : dropLitCI "member ".data cs with
  | none => rw [h1] at h; simp at h
  | some rest =>
    rw [h1] at h
    simp only [Option.some_bind] at h
    by_cases he : (rest.takeWhile isAddrChar).isEmpty = true
    · rw [if_pos he] at h; simp at h
    · rw [if_neg he] at h
      cases h2 : dropLitCI " is now in state ".data (rest.dropWhile isAddrChar) with
      | none => rw [h2] at h; simp at h
      | some rest3 =>
        rw [h2] at h
        simp only [Option.some_bind] at h
        by_cases hs3 : (rest3.takeWhile isWordChar).isEmpty = true
        · rw [if_pos hs3] at h; simp at h
        · rw [if_neg hs3] at h
          simp only [Option.some.injEq, Prod.mk.injEq] at h
          obtain ⟨ha, hst⟩ := h
          constructor
          · intro hnil
            rw [hnil] at ha
            rw [ha] at he
            simp at he
          · intro c hc
            rw [← ha] at hc
            exact List.mem_takeWhile_imp hc

theorem memberFind_sound {l addr st : List Char}
    (h : memberFind l = some (addr, st)) :
    addr ≠ [] ∧ ∀ c ∈ addr, isAddrChar c = true := by
  induction l with
  | nil => simp [memberFind] at h
  | cons c cs ih =>
    unfold memberFind at h
    cases hm : matchMemberAt (c :: cs) with
    | some r =>
      rw [hm] at h
      simp only [Option.some.injEq] at h
      subst h
      exact matchMemberAt_sound hm
    | none =>
      rw [hm] at h
      exact ih h

/-- Any failure the classifier detects is handed to `instanceFailed` with
exactly the classified message, and the step emits only the raw stdout
event. -/
theorem classifiedFailure_spec {s : MongoInstanceState} {line msg : String}
    (h : classifiedFailure s line = some msg) :
    stdoutHandler s line = (instanceFailed s msg, [Ev.instanceSTDOUT line]) := by
  unfold classifiedFailure at h
  unfold stdoutHandler
  by_cases h1 : mWaiting line = true
  · rw [if_pos h1] at h; exact absurd h (by simp)
  · rw [if_neg h1] at h; rw [if_neg h1]
    by_cases h2 : mAddrInUse line = true
    · rw [if_pos h2] at h; rw [if_pos h2]
      simp only [Option.some.injEq] at h
      rw [h]
    · rw [if_neg h2] at h; rw [if_neg h2]
      by_cases h3 : mAlreadyRunning line = true
      · rw [if_pos h3] at h; rw [if_pos h3]
        simp only [Option.some.injEq] at h
        rw [h]
      · rw [if_neg h3] at h; rw [if_neg h3]
        by_cases h4 : mPermissionDenied line = true
        · rw [if_pos h4] at h; rw [if_pos h4]
          simp only [Option.some.injEq] at h
          rw [h]
        · rw [if_neg h4] at h; rw [if_neg h4]
          by_cases h5 : mDataDir line = true
          · rw [if_pos h5] at h; rw [if_pos h5]
            simp only [Option.some.injEq] at h
            rw [h]
          · rw [if_neg h5] at h; rw [if_neg h5]
            by_cases h6 : mCurl3 line = true
            · rw [if_pos h6] at h; rw [if_pos h6]
              simp only [Option.some.injEq] at h
              rw [h]
            · rw [if_neg h6] at h; rw [if_neg h6]
              by_cases h7 : mCurl4 line = true
              · rw [if_pos h7] at h; rw [if_pos h7]
                simp only [Option.some.injEq] at h
                rw [h]
              · rw [if_neg h7] at h; rw [if_neg h7]
                by_cases h8 : mShutting line = true
                · rw [if_pos h8] at h; rw [if_pos h8]
                  by_cases hr : s.isInstanceReady = true
                  · rw [if_pos hr] at h; exact absurd h (by simp)
                  · rw [if_neg hr] at h
                    rw [if_neg hr]
                    simp only [Option.some.injEq] at h
                    rw [h]
                · rw [if_neg h8] at h; rw [if_neg h8]
                  by_cases h9 : mAborting line = true
                  · rw [if_pos h9] at h; rw [if_pos h9]
                    simp only [Option.some.injEq] at h
                    rw [h]
                  · rw [if_neg h9] at h
                    exact absurd h (by simp)

/-- Exhaustive description of the shapes a classifier step can take: a
failure handed to `instanceFailed`, the readiness transition, a step that
leaves the state unchanged, the primary-election transition, or the
member-state transition. -/
theorem stdoutHandler_cases (s : MongoInstanceState) (line : String) :
    (∃ msg, stdoutHandler s line = (instanceFailed s msg, [Ev.instanceSTDOUT line]))
  ∨ stdoutHandler s line = (instanceReady s, [Ev.instanceSTDOUT line, Ev.instanceReadyEv])
  ∨ stdoutHandler s line = (s, [Ev.instanceSTDOUT line])
  ∨ (mPrimaryTransition line = true ∧
      stdoutHandler s line =
        ({ s with
            isInstancePrimary := true,
            waiterSettled := settleAll s.waiterSettled s.waitForPrimaryResolveFns true },
         [Ev.instanceSTDOUT line, Ev.instancePrimary]))
  ∨ (memberTest line = true ∧
      stdoutHandler s line =
        ({ s with
            isInstancePrimary :=
              if (memberExtract line).getD "UNKOWN" == "PRIMARY" then s.isInstancePrimary
              else false },
         [Ev.instanceSTDOUT line, Ev.instanceState ((memberExtract line).getD "UNKOWN")])) := by
  unfold stdoutHandler
  by_cases h1 : mWaiting line = true
  · rw [if_pos h1]; right; left; rfl
  · rw [if_neg h1]
    by_cases h2 : mAddrInUse line = true
    · rw [if_pos h2]; left; exact ⟨_, rfl⟩
    · rw [if_neg h2]
      by_cases h3 : mAlreadyRunning line = true
      · rw [if_pos h3]; left; exact ⟨_, rfl⟩
      · rw [if_neg h3]
        by_cases h4 : mPermissionDenied line = true
        · rw [if_pos h4]; left; exact ⟨_, rfl⟩
        · rw [if_neg h4]
          by_cases h5 : mDataDir line = true
          · rw [if_pos h5]; left; exact ⟨_, rfl⟩
          · rw [if_neg h5]
            by_cases h6 : mCurl3 line = true
            · rw [if_pos h6]; left; exact ⟨_, rfl⟩
            · rw [if_neg h6]
              by_cases h7 : mCurl4 line = true
              · rw [if_pos h7]; left; exact ⟨_, rfl⟩
              · rw [if_neg h7]
                by_cases h8 : mShutting line = true
                · rw [if_pos h8]
                  by_cases hr : s.isInstanceReady = true
                  · rw [if_pos hr]; right; right; left; rfl
                  · rw [if_neg hr]; left; exact ⟨_, rfl⟩
                · rw [if_neg h8]
                  by_cases h9 : mAborting line = true
                  · rw [if_pos h9]; left; exact ⟨_, rfl⟩
                  · rw [if_neg h9]
                    by_cases h10 : mPrimaryTransition line = true
                    · rw [if_pos h10]
                      right; right; right; left
                      exact ⟨h10, rfl⟩
                    · rw [if_neg h10]
                      by_cases h11 : memberTest line = true
                      · rw [if_pos h11]
                        right; right; right; right
                        exact ⟨h11, rfl⟩
                      · rw [if_neg h11]; right; right; left; rfl

/-! Concrete instance states used as evaluation points. -/

/-- A freshly launched instance: launch pending, killer process present,
port 27017 configured. -/
def s0 : MongoInstanceState :=
  { instancePort := some 27017, killerPresent := true, isInstancePrimary := false,
    isInstanceReady := false, launch := LaunchPromise.pending,
    waitForPrimaryResolveFns := [], waiterSettled := [], killerKillCount := 0 }

/-- `s0` with one pending primary waiter registered. -/
def s1 : MongoInstanceState := { s0 with waitForPrimaryResolveFns := [0] }

/-- `s0` after a successful launch: ready, launch promise fulfilled. -/
def s2 : MongoInstanceState :=
  { s0 with isInstanceReady := true, launch := LaunchPromise.fulfilled }

/-- `s2` while the instance is primary. -/
def s3 : MongoInstanceState := { s2 with isInstancePrimary := true }

/-- The primary-election-complete marker line. -/
def primLine : String :=
  "transition to primary complete; database writes are now permitted"

/-- Claim C1, counterexample: a classifier-detected failure
("permission denied") rejects the pending launch but emits no error
notification of any kind — the only event is the raw stdout line; and the
same failure arriving after the launch completion has resolved leaves the
completion untouched and again emits only the raw stdout line, so there is
no distinct runtime-error notification channel. -/
theorem mongoC1_counterexample :
    (stdoutHandler s0 "permission denied").1.launch =
      LaunchPromise.rejected "Mongod permission denied"
  ∧ (stdoutHandler s0 "permission denied").2 = [Ev.instanceSTDOUT "permission denied"]
  ∧ (stdoutHandler s2 "permission denied").1.launch = LaunchPromise.fulfilled
  ∧ (stdoutHandler s2 "permission denied").2 = [Ev.instanceSTDOUT "permission denied"] := by
  decide

/-- Claim C1, amended: every failure the classifier detects funnels into the
single `instanceFailed` handler, which (a) rejects the pending launch
completion with that failure if launch is still pending, and (b) signals the
watchdog (killer) process to terminate; it emits no error notification, and
a failure occurring after the launch completion has resolved leaves the
completion unchanged and produces no notification at all beyond the raw
stdout event — it is dropped (apart from re-signalling the watchdog). -/
theorem mongoC1_amended (s : MongoInstanceState) (line msg : String)
    (h : classifiedFailure s line = some msg) :
    (s.launch = LaunchPromise.pending →
       (stdoutHandler s line).1.launch = LaunchPromise.rejected msg)
  ∧ (s.launch ≠ LaunchPromise.pending → (stdoutHandler s line).1.launch = s.launch)
  ∧ (s.killerPresent = true →
       (stdoutHandler s line).1.killerKillCount = s.killerKillCount + 1)
  ∧ (stdoutHandler s line).2 = [Ev.instanceSTDOUT line] := by
  have hspec := classifiedFailure_spec h
  rw [hspec]
  refine ⟨?_, ?_, ?_, rfl⟩
  · intro hp
    simp [instanceFailed, promiseReject, hp]
  · intro hp
    cases hl : s.launch with
    | pending => exact absurd hl hp
    | fulfilled => simp [instanceFailed, promiseReject, hl]
    | rejected m => simp [instanceFailed, promiseReject, hl]
  · intro hk
    simp [instanceFailed, hk]

/-- Claim C1, witness: the already-running failure line rejects the pending
launch of `s0` with the classified message. -/
theorem mongoC1_amended_witness :
    (stdoutHandler s0 "Mongod instance already running").1.launch =
      LaunchPromise.rejected "Mongod already running" := by
  have h := mongoC1_amended s0 "Mongod instance already running" "Mongod already running"
    (by decide)
  exact h.1 (by decide)

/-- Claim C2, counterexample: with one primary waiter pending, a
classifier-detected failure ("permission denied") rejects the launch — a
terminal failure outcome — yet the waiter is neither removed nor resolved
with any value: it leaks. -/
theorem mongoC2_counterexample :
    (stdoutHandler s1 "permission denied").1.launch =
      LaunchPromise.rejected "Mongod permission denied"
  ∧ (stdoutHandler s1 "permission denied").1.waitForPrimaryResolveFns = [0]
  ∧ (stdoutHandler s1 "permission denied").1.waiterSettled = [] := by
  decide

/-- Claim C2, amended: a primary waiter registered before the
primary-elected transition is resolved, with success, exactly once when that
transition is classified (an already-settled waiter keeps its first value);
but no classifier step other than the primary transition ever settles a
waiter — in particular, instance failure leaves every pending primary waiter
unresolved forever, and no step ever removes entries from the waiter
list. -/
theorem mongoC2_amended (s : MongoInstanceState) (line : String) (id : Nat) :
    ((stdoutHandler s line).1.waitForPrimaryResolveFns = s.waitForPrimaryResolveFns)
  ∧ (mPrimaryTransition line = false →
       (stdoutHandler s line).1.waiterSettled = s.waiterSettled)
  ∧ (mWaiting line = false → mAddrInUse line = false → mAlreadyRunning line = false →
     mPermissionDenied line = false → mDataDir line = false → mCurl3 line = false →
     mCurl4 line = false → mShutting line = false → mAborting line = false →
     mPrimaryTransition line = true →
     ∀ i ∈ s.waitForPrimaryResolveFns,
       (stdoutHandler s line).1.waiterSettled.lookup i =
         some ((s.waiterSettled.lookup i).getD true))
  ∧ (s.isInstancePrimary = false →
       (waitPrimaryReady s id).1.waitForPrimaryResolveFns =
           s.waitForPrimaryResolveFns ++ [id]
         ∧ (waitPrimaryReady s id).2 = none) := by
  refine ⟨?_, ?_, ?_, ?_⟩
  · rcases stdoutHandler_cases s line with ⟨msg, h⟩ | h | h | ⟨_, h⟩ | ⟨_, h⟩ <;>
      rw [h] <;> simp [instanceFailed, instanceReady]
  · intro hpt
    rcases stdoutHandler_cases s line with ⟨msg, h⟩ | h | h | ⟨hp, h⟩ | ⟨_, h⟩
    · rw [h]; simp [instanceFailed]
    · rw [h]; simp [instanceReady]
    · rw [h]
    · rw [hpt] at hp; exact absurd hp (by simp)
    · rw [h]
  · intro h1 h2 h3 h4 h5 h6 h7 h8 h9 h10 i hi
    have hh : stdoutHandler s line =
        ({ s with
            isInstancePrimary := true,
            waiterSettled := settleAll s.waiterSettled s.waitForPrimaryResolveFns true },
         [Ev.instanceSTDOUT line, Ev.instancePrimary]) := by
      unfold stdoutHandler
      rw [if_neg (by simp [h1]), if_neg (by simp [h2]), if_neg (by simp [h3]),
          if_neg (by simp [h4]), if_neg (by simp [h5]), if_neg (by simp [h6]),
          if_neg (by simp [h7]), if_neg (by simp [h8]), if_neg (by simp [h9]),
          if_pos h10]
    rw [hh]
    simp only
    rw [settleAll_lookup]
    simp [hi]
  · intro hp
    unfold waitPrimaryReady
    rw [if_neg (by simp [hp])]
    exact ⟨rfl, rfl⟩

/-- Claim C2, witness: the waiter pending in `s1` is settled with `true`
when the primary-transition line is classified. -/
theorem mongoC2_amended_witness :
    (stdoutHandler s1 primLine).1.waiterSettled.lookup 0 = some true := by
  have h := (mongoC2_amended s1 primLine 7).2.2.1 (by decide) (by decide) (by decide)
    (by decide) (by decide) (by decide) (by decide) (by decide) (by decide) (by decide)
    0 (by decide)
  rw [h]
  decide

/-- Claim C3, counterexample: the literal stdout line
"address already in use" matches no classifier pattern — in particular not
`/addr already in use/i` — so feeding it to a not-yet-ready instance leaves
the whole state unchanged (launch still pending) instead of failing the
launch with a bind-conflict error. -/
theorem mongoC3_counterexample :
    stdoutHandler s0 "address already in use" =
      (s0, [Ev.instanceSTDOUT "address already in use"])
  ∧ s0.launch = LaunchPromise.pending := by
  decide

/-- Claim C3, amended: the bind-conflict branch triggers on lines containing
"addr already in use" (case-insensitively; the English phrase
"address already in use" does not match it).  For every state, such a line
(not also matching the readiness pattern) invokes `instanceFailed` with a
message naming the configured port: a still-pending launch is rejected with
that message, while a settled launch is left unchanged — and in neither case
is any error notification emitted (the only event is the raw stdout line). -/
theorem mongoC3_amended (s : MongoInstanceState) (line : String)
    (hw : mWaiting line = false) (ha : mAddrInUse line = true) :
    stdoutHandler s line =
      (instanceFailed s ("Port " ++ portToString s.instancePort ++ " already in use"),
       [Ev.instanceSTDOUT line])
  ∧ (s.launch = LaunchPromise.pending →
       (stdoutHandler s line).1.launch =
         LaunchPromise.rejected
           ("Port " ++ portToString s.instancePort ++ " already in use"))
  ∧ (s.launch ≠ LaunchPromise.pending → (stdoutHandler s line).1.launch = s.launch) := by
  have hcf : classifiedFailure s line =
      some ("Port " ++ portToString s.instancePort ++ " already in use") := by
    unfold classifiedFailure
    rw [if_neg (by simp [hw]), if_pos ha]
  have hspec := classifiedFailure_spec hcf
  refine ⟨hspec, ?_, ?_⟩
  · intro hp
    rw [hspec]
    simp [instanceFailed, promiseReject, hp]
  · intro hp
    rw [hspec]
    cases hl : s.launch with
    | pending => exact absurd hl hp
    | fulfilled => simp [instanceFailed, promiseReject, hl]
    | rejected m => simp [instanceFailed, promiseReject, hl]

/-- Claim C3, witness: the matching line "addr already in use" fails `s0`
with a message that names the configured port 27017. -/
theorem mongoC3_amended_witness :
    stdoutHandler s0 "addr already in use" =
      (instanceFailed s0 ("Port " ++ portToString s0.instancePort ++ " already in use"),
       [Ev.instanceSTDOUT "addr already in use"])
  ∧ containsCI ("Port " ++ portToString s0.instancePort ++ " already in use") "27017"
      = true :=
  ⟨(mongoC3_amended s0 "addr already in use" (by decide) (by decide)).1, by decide⟩

/-- Claim C4, counterexample: whichever of the two processes gets stuck, the
rejection carries the same fixed message, which mentions neither
"childProcess" nor "killerProcess" — the stuck-process error does not
identify which of the two processes failed to terminate. -/
theorem mongoC4_counterexample :
    (kill (some ⟨none, none⟩) (some ⟨some 0, none⟩)).2 =
      Except.error killInternalErrorMsg
  ∧ (kill (some ⟨some 0, none⟩) (some ⟨none, none⟩)).2 =
      Except.error killInternalErrorMsg
  ∧ containsCI killInternalErrorMsg "child" = false
  ∧ containsCI killInternalErrorMsg "killer" = false := by
  decide

/-- Claim C4, amended: `kill` terminates the server process first and then
the watchdog process, each via two-stage escalation — `SIGINT`, wait up to
10 seconds, on timeout `SIGKILL` and up to another 10 seconds, then reject;
a never-started process is skipped with no error — but the stuck-process
rejection carries a fixed generic message that does not identify which of
the two processes failed to terminate (the name appears only in debug
logging). -/
theorem mongoC4_amended :
    (∀ (p : ProcBehavior) (t : Nat), p.sigintExitDelay = some t → t < timeoutTime →
       kill_internal p = ([Signal.SIGINT], Except.ok ()))
  ∧ (∀ (p : ProcBehavior) (t : Nat), p.sigintExitDelay = some t → timeoutTime ≤ t →
       (kill_internal p).1 = [Signal.SIGINT, Signal.SIGKILL])
  ∧ (∀ p : ProcBehavior, p.sigintExitDelay = none →
       (kill_internal p).1 = [Signal.SIGINT, Signal.SIGKILL])
  ∧ (∀ (p : ProcBehavior) (e : String), (kill_internal p).2 = Except.error e →
       e = killInternalErrorMsg)
  ∧ kill_internal ⟨none, none⟩ =
      ([Signal.SIGINT, Signal.SIGKILL], Except.error killInternalErrorMsg)
  ∧ kill none none = ([], Except.ok ())
  ∧ (∀ kb : ProcBehavior,
       kill none (some kb) =
         ((kill_internal kb).1.map fun sg => ("killerProcess", sg), (kill_internal kb).2))
  ∧ (∀ cb kb : ProcBehavior, (kill_internal cb).2 = Except.ok () →
       kill (some cb) (some kb) =
         ((kill_internal cb).1.map (fun sg => ("childProcess", sg))
            ++ (kill_internal kb).1.map (fun sg => ("killerProcess", sg)),
          (kill_internal kb).2))
  ∧ (∀ cb : ProcBehavior, ∀ e : String, (kill_internal cb).2 = Except.error e →
       kill (some cb) none =
         ((kill_internal cb).1.map (fun sg => ("childProcess", sg)), Except.error e))
  ∧ timeoutTime = 10000 := by
  refine ⟨?_, ?_, ?_, ?_, by decide, rfl, ?_, ?_, ?_, rfl⟩
  · intro p t hp ht
    cases p with
    | mk si sk =>
      have hp' : si = some t := hp
      subst hp'
      simp [kill_internal, ht]
  · intro p t hp ht
    cases p with
    | mk si sk =>
      have hp' : si = some t := hp
      subst hp'
      have hnl : ¬(t < timeoutTime) := Nat.not_lt.mpr ht
      simp only [kill_internal, hnl, if_false]
      split
      · split
        · rfl
        · rfl
      · rfl
  · intro p hp
    cases p with
    | mk si sk =>
      have hp' : si = none := hp
      subst hp'
      simp only [kill_internal]
      split
      · split
        · rfl
        · rfl
      · rfl
  · intro p e h
    cases p with
    | mk si sk =>
      unfold kill_internal at h
      cases si with
      | some t =>
        simp only at h
        by_cases ht : t < timeoutTime
        · rw [if_pos ht] at h; simp at h
        · rw [if_neg ht] at h
          rcases hmo : minOpt (some t) (sk.map fun k => timeoutTime + k) with _ | e2
          · rw [hmo] at h; simp at h; exact h.symm
          · rw [hmo] at h
            simp only at h
            by_cases he : e2 < 2 * timeoutTime
            · rw [if_pos he] at h; simp at h
            · rw [if_neg he] at h; simp at h; exact h.symm
      | none =>
        simp only at h
        rcases hmo : Option.map (fun k => timeoutTime + k) sk with _ | e2
        · rw [hmo] at h; simp at h; exact h.symm
        · rw [hmo] at h
          simp only at h
          by_cases he : e2 < 2 * timeoutTime
          · rw [if_pos he] at h; simp at h
          · rw [if_neg he] at h; simp at h; exact h.symm
  · intro kb
    simp [kill]
  · intro cb kb hok
    simp [kill, hok]
  · intro cb e h
    simp [kill, h]

/-- Claim C4, witness: a process exiting 5 ms after `SIGINT` receives only
the graceful signal and the call succeeds. -/
theorem mongoC4_amended_witness :
    kill_internal ⟨some 5, none⟩ = ([Signal.SIGINT], Except.ok ()) :=
  mongoC4_amended.1 ⟨some 5, none⟩ 5 rfl (by decide)

/-- Claim C5, counterexample: after the primary-election line is classified,
the primary flag is set and the waiter registered in `s1` has been resolved,
yet the pending list is not drained — its entry is still there, so stale
pending entries do remain. -/
theorem mongoC5_counterexample :
    (stdoutHandler s1 primLine).1.isInstancePrimary = true
  ∧ (stdoutHandler s1 primLine).1.waiterSettled = [(0, true)]
  ∧ (stdoutHandler s1 primLine).1.waitForPrimaryResolveFns = [0] := by
  decide

/-- Claim C5, amended: when the primary-election-complete marker is
classified, the primary sub-state is set to true, the "primary" notification
fires, and every currently pending primary-wait request is resolved with
success in FIFO order in that single step; however the pending list is not
cleared — its entries remain afterwards (their re-invocation on a later
primary event is a no-op on already-settled promises). -/
theorem mongoC5_amended (s : MongoInstanceState) (line : String)
    (h1 : mWaiting line = false) (h2 : mAddrInUse line = false)
    (h3 : mAlreadyRunning line = false) (h4 : mPermissionDenied line = false)
    (h5 : mDataDir line = false) (h6 : mCurl3 line = false) (h7 : mCurl4 line = false)
    (h8 : mShutting line = false) (h9 : mAborting line = false)
    (h10 : mPrimaryTransition line = true) :
    stdoutHandler s line =
      ({ s with
          isInstancePrimary := true,
          waiterSettled := settleAll s.waiterSettled s.waitForPrimaryResolveFns true },
       [Ev.instanceSTDOUT line, Ev.instancePrimary])
  ∧ (s.waiterSettled = [] → s.waitForPrimaryResolveFns.Nodup →
      (stdoutHandler s line).1.waiterSettled =
        s.waitForPrimaryResolveFns.map (fun i => (i, true)))
  ∧ (stdoutHandler s line).1.waitForPrimaryResolveFns = s.waitForPrimaryResolveFns := by
  have hh : stdoutHandler s line =
      ({ s with
          isInstancePrimary := true,
          waiterSettled := settleAll s.waiterSettled s.waitForPrimaryResolveFns true },
       [Ev.instanceSTDOUT line, Ev.instancePrimary]) := by
    unfold stdoutHandler
    rw [if_neg (by simp [h1]), if_neg (by simp [h2]), if_neg (by simp [h3]),
        if_neg (by simp [h4]), if_neg (by simp [h5]), if_neg (by simp [h6]),
        if_neg (by simp [h7]), if_neg (by simp [h8]), if_neg (by simp [h9]),
        if_pos h10]
  refine ⟨hh, ?_, ?_⟩
  · intro hempty hnd
    rw [hh]
    simp only
    rw [hempty]
    rw [settleAll_fresh _ _ _ (by intro i _; rfl) hnd]
    simp
  · rw [hh]

/-- Claim C5, witness: with waiter 0 pending and nothing settled, the
primary line settles exactly waiter 0 with success. -/
theorem mongoC5_amended_witness :
    (stdoutHandler s1 primLine).1.waiterSettled = [(0, true)] := by
  have h := (mongoC5_amended s1 primLine (by decide) (by decide) (by decide) (by decide)
    (by decide) (by decide) (by decide) (by decide) (by decide) (by decide)).2.1
    (by decide) (by decide)
  rw [h]
  decide

/-- Claim C6, confirmed: a line matching the "shutting down with code"
pattern (and none of the higher-priority patterns) produces the
premature-shutdown failure exactly when readiness was never reached: before
readiness the launch promise is rejected with "Mongod shutting down", while
after readiness the state is left completely unchanged — a normal close with
no failure. -/
theorem mongoC6_shutdown (s : MongoInstanceState) (line : String)
    (h1 : mWaiting line = false) (h2 : mAddrInUse line = false)
    (h3 : mAlreadyRunning line = false) (h4 : mPermissionDenied line = false)
    (h5 : mDataDir line = false) (h6 : mCurl3 line = false) (h7 : mCurl4 line = false)
    (h8 : mShutting line = true) :
    stdoutHandler s line =
      (if s.isInstanceReady then s else instanceFailed s "Mongod shutting down",
       [Ev.instanceSTDOUT line])
  ∧ (s.isInstanceReady = false →
       (stdoutHandler s line).1.launch = promiseReject "Mongod shutting down" s.launch)
  ∧ (s.isInstanceReady = true → (stdoutHandler s line).1 = s) := by
  have hh : stdoutHandler s line =
      (if s.isInstanceReady then s else instanceFailed s "Mongod shutting down",
       [Ev.instanceSTDOUT line]) := by
    unfold stdoutHandler
    rw [if_neg (by simp [h1]), if_neg (by simp [h2]), if_neg (by simp [h3]),
        if_neg (by simp [h4]), if_neg (by simp [h5]), if_neg (by simp [h6]),
        if_neg (by simp [h7]), if_pos h8]
  refine ⟨hh, ?_, ?_⟩
  · intro hr
    rw [hh]
    simp [hr, instanceFailed]
  · intro hr
    rw [hh]
    simp [hr]

/-- Claim C6, witness: before readiness the shutdown line rejects the launch
of `s0`; after readiness (`s2`) the very same line leaves the state
untouched. -/
theorem mongoC6_shutdown_witness :
    (stdoutHandler s0 "shutting down with code").1.launch =
      LaunchPromise.rejected "Mongod shutting down"
  ∧ (stdoutHandler s2 "shutting down with code").1 = s2 := by
  constructor
  · have h := (mongoC6_shutdown s0 "shutting down with code" (by decide) (by decide)
      (by decide) (by decide) (by decide) (by decide) (by decide) (by decide)).2.1 (by decide)
    rw [h]
    decide
  · exact (mongoC6_shutdown s2 "shutting down with code" (by decide) (by decide)
      (by decide) (by decide) (by decide) (by decide) (by decide) (by decide)).2.2 (by decide)

/-- Claim C7, counterexample: extra raw arguments are appended verbatim, so
a configuration with no port but `args = ["--port", "27018"]` still emits a
`--port` token (and a duplicate auth token is equally possible) — the
universally quantified claim fails. -/
theorem mongoC7_counterexample :
    "--port" ∈ prepareCommandArgs
      { port := none, ip := none, storageEngine := none, dbPath := none,
        replSet := none, args := some ["--port", "27018"], auth := none }
  ∧ portTruthy (none : Option Nat) = false := by
  decide

/-- Claim C7, amended: the Command Builder is pure and total, and among the
tokens it generates itself (everything before the extra raw arguments, which
are appended verbatim and unvalidated) the port clause is empty whenever the
port is unset (absent or 0) and the authentication clause is always exactly
one of `--auth` / `--noauth`, with `--auth` exactly when the auth flag is
true. -/
theorem mongoC7_amended (o : MongoInstanceOpts) :
    prepareCommandArgs o = builderOwnArgs o ++ o.args.getD []
  ∧ builderOwnArgs o =
      ["--bind_ip", ipOrDefault o.ip] ++ portArgs o.port ++ storageEngineArgs o.storageEngine
        ++ dbPathArgs o.dbPath ++ authArgs o.auth ++ replSetArgs o.replSet
  ∧ (portTruthy o.port = false → portArgs o.port = [])
  ∧ (authArgs o.auth = ["--auth"] ∨ authArgs o.auth = ["--noauth"])
  ∧ (authArgs o.auth = ["--auth"] ↔ o.auth = some true) := by
  refine ⟨rfl, rfl, ?_, ?_, ?_⟩
  · intro h
    cases hp : o.port with
    | none => rfl
    | some p =>
      rw [hp] at h
      unfold portTruthy at h
      simp at h
      simp [portArgs, h]
  · cases ha : o.auth with
    | none => right; rfl
    | some b =>
      cases b with
      | false => right; rfl
      | true => left; rfl
  · constructor
    · intro h
      cases ha : o.auth with
      | none =>
        rw [ha] at h
        exact absurd h (by decide)
      | some b =>
        cases b with
        | false =>
          rw [ha] at h
          exact absurd h (by decide)
        | true => rfl
    · intro h
      rw [h]
      rfl

/-- Claim C7, witness: with the default (empty) options, the port clause is
empty and the auth clause is the single token `--noauth`. -/
theorem mongoC7_amended_witness :
    portArgs (none : Option Nat) = [] ∧ authArgs (none : Option Bool) = ["--noauth"] :=
  ⟨(mongoC7_amended {}).2.2.1 (by decide), by decide⟩

/-- Claim C9, confirmed: the builder treats every falsy bind address — the
empty string exactly like an absent one — as unconfigured and substitutes
the loopback default "127.0.0.1"; likewise a configured port of 0 is treated
exactly like an unset port (in particular the port clause emits nothing). -/
theorem mongoC9_falsyDefaults (o : MongoInstanceOpts) :
    prepareCommandArgs { o with ip := some "" } = prepareCommandArgs { o with ip := none }
  ∧ prepareCommandArgs { o with port := some 0 } =
      prepareCommandArgs { o with port := none }
  ∧ (prepareCommandArgs { o with ip := some "" }).take 2 = ["--bind_ip", "127.0.0.1"]
  ∧ (prepareCommandArgs { o with ip := none }).take 2 = ["--bind_ip", "127.0.0.1"]
  ∧ portArgs (some 0) = portArgs none :=
  ⟨rfl, rfl, rfl, rfl, rfl⟩

/-- Claim C8, confirmed: when a member-state-change line is classified (and
no higher-priority pattern matched), the extracted state value is delivered
in a "state changed" notification and the primary sub-state is cleared to
false exactly when that value is not "PRIMARY" (when it is "PRIMARY" the
sub-state is left as it was); moreover whenever the member pattern tests
positively the extraction succeeds, so the "UNKOWN" fallback of the source
is unreachable. -/
theorem mongoC8_memberState (s : MongoInstanceState) (line st : String)
    (h1 : mWaiting line = false) (h2 : mAddrInUse line = false)
    (h3 : mAlreadyRunning line = false) (h4 : mPermissionDenied line = false)
    (h5 : mDataDir line = false) (h6 : mCurl3 line = false) (h7 : mCurl4 line = false)
    (h8 : mShutting line = false) (h9 : mAborting line = false)
    (h10 : mPrimaryTransition line = false)
    (hm : memberExtract line = some st) :
    stdoutHandler s line =
      ({ s with
          isInstancePrimary := if st == "PRIMARY" then s.isInstancePrimary else false },
       [Ev.instanceSTDOUT line, Ev.instanceState st])
  ∧ (∀ l : String, memberTest l = true → (memberExtract l).isSome = true) := by
  constructor
  · have ht : memberTest line = true := by
      unfold memberTest
      unfold memberExtract at hm
      cases hf : memberFind line.data with
      | none => rw [hf] at hm; simp at hm
      | some r => simp [hf]
    unfold stdoutHandler
    rw [if_neg (by simp [h1]), if_neg (by simp [h2]), if_neg (by simp [h3]),
        if_neg (by simp [h4]), if_neg (by simp [h5]), if_neg (by simp [h6]),
        if_neg (by simp [h7]), if_neg (by simp [h8]), if_neg (by simp [h9]),
        if_neg (by simp [h10]), if_pos ht, hm]
    rfl
  · intro l hl
    unfold memberTest at hl
    unfold memberExtract
    cases hf : memberFind l.data with
    | none => rw [hf] at hl; simp at hl
    | some r => simp

/-- Claim C8, witness: a secondary-state line on a primary instance emits
the "SECONDARY" state notification and clears the primary flag. -/
theorem mongoC8_memberState_witness :
    stdoutHandler s3 "member 127.0.0.1:27017 is now in state SECONDARY" =
      ({ s3 with isInstancePrimary := false },
       [Ev.instanceSTDOUT "member 127.0.0.1:27017 is now in state SECONDARY",
        Ev.instanceState "SECONDARY"]) := by
  rw [(mongoC8_memberState s3 "member 127.0.0.1:27017 is now in state SECONDARY" "SECONDARY"
    (by decide) (by decide) (by decide) (by decide) (by decide) (by decide) (by decide)
    (by decide) (by decide) (by decide) (by decide)).1]
  decide

/-- Claim C10, confirmed: the member-state pattern only ever matches a
nonempty address composed of digits, dots and colons — any emitted
"state changed" notification comes from such a match — and a member line
whose address is a hostname containing letters matches nothing: it leaves
the entire state (in particular the primary sub-state) unchanged and emits
no "state changed" notification, only the raw stdout event. -/
theorem mongoC10_memberAddr :
    (∀ (s : MongoInstanceState) (line st : String),
        Ev.instanceState st ∈ (stdoutHandler s line).2 →
        ∃ addr, memberFind line.data = some (addr, st.data)
          ∧ addr ≠ [] ∧ ∀ c ∈ addr, isAddrChar c = true)
  ∧ (∀ s : MongoInstanceState,
      stdoutHandler s "member mongo.example.com:27017 is now in state SECONDARY" =
        (s, [Ev.instanceSTDOUT "member mongo.example.com:27017 is now in state SECONDARY"])) := by
  constructor
  · intro s line st hmem
    rcases stdoutHandler_cases s line with ⟨msg, h⟩ | h | h | ⟨_, h⟩ | ⟨ht, h⟩
    · rw [h] at hmem; simp at hmem
    · rw [h] at hmem; simp at hmem
    · rw [h] at hmem; simp at hmem
    · rw [h] at hmem; simp at hmem
    · rw [h] at hmem
      simp at hmem
      unfold memberTest at ht
      cases hf : memberFind line.data with
      | none => rw [hf] at ht; simp at ht
      | some r =>
        obtain ⟨a, b⟩ := r
        have hme : memberExtract line = some (String.mk b) := by
          unfold memberExtract
          rw [hf]
          rfl
        rw [hme] at hmem
        simp at hmem
        refine ⟨a, ?_, (memberFind_sound hf).1, (memberFind_sound hf).2⟩
        simp [hmem]
  · intro s
    unfold stdoutHandler
    rw [if_neg (by decide), if_neg (by decide), if_neg (by decide), if_neg (by decide),
        if_neg (by decide), if_neg (by decide), if_neg (by decide), if_neg (by decide),
        if_neg (by decide), if_neg (by decide), if_neg (by decide)]

/-- Claim C10, witness: a digits-dots-colons member line does match, and the
matched address indeed consists only of such characters. -/
theorem mongoC10_memberAddr_witness :
    ∃ addr, memberFind "member 10.0.0.1:27017 is now in state STARTUP2".data =
        some (addr, "STARTUP2".data)
      ∧ addr ≠ [] ∧ ∀ c ∈ addr, isAddrChar c = true :=
  mongoC10_memberAddr.1 s0 "member 10.0.0.1:27017 is now in state STARTUP2" "STARTUP2"
    (by decide)
